import Mathlib

/-!
Verification development for the mcp-weather server (src/server.ts).

The file shallowly embeds the two components the claims are about:

* the session-lifecycle broker: the `transports` registry together with the
  `app.post("/mcp")` and `app.delete("/mcp")` express handlers;
* the `weather_by_city` tool handler (geocode, forecast, formatting).

External collaborators (the Open-Meteo HTTP endpoints) are modelled as
oracles passed to the handler; the handler additionally returns the ordered
trace of upstream requests it issued, so that ordering and at-most-once
properties are expressible.  Behaviour of the MCP SDK transport
(`StreamableHTTPServerTransport`) and of `randomUUID`, which are not part of
this repository's sources, is modelled from the specification where a claim
depends on it; each such definition carries a doc comment saying so.
-/

namespace McpWeather

/-- A JSON value, used to state the exact JSON-RPC error body the router
sends on a missing or invalid session. -/
inductive Json where
  | null : Json
  | str (s : String) : Json
  | num (n : Int) : Json
  | bool (b : Bool) : Json
  | arr (xs : List Json) : Json
  | obj (fields : List (String × Json)) : Json

/-- An HTTP response as produced by the two `/mcp` express handlers: a status
code and an optional JSON body (`res.status(400).json(...)` versus
`res.status(204).end()`). -/
structure HttpResponse where
  status : Nat
  body : Option Json

/-- The exact JSON-RPC error body of the 400 response in `app.post("/mcp")`:
`{jsonrpc: "2.0", error: {code: -32000, message: "Bad Request: No valid
session ID provided"}, id: null}`. -/
def badRequestBody : Json :=
  .obj [("jsonrpc", .str "2.0"),
        ("error", .obj [("code", .num (-32000)),
                        ("message", .str "Bad Request: No valid session ID provided")]),
        ("id", .null)]

/-- The full 400 response sent when no transport is found and the body is not
an initialize request. -/
def badRequestResponse : HttpResponse :=
  { status := 400, body := some badRequestBody }

/-- The request body of a POST to `/mcp`, as far as the router inspects it:
the router only ever asks `isInitializeRequest(req.body)`. -/
structure McpBody where
  json : Json

/-- Modelled from the spec: the SDK predicate `isInitializeRequest` (from
`@modelcontextprotocol/sdk/types.js`, not part of this repository) recognises
a well-formed JSON-RPC 2.0 initialization request, i.e. an object whose
`jsonrpc` field is `"2.0"` and whose `method` field is `"initialize"`. -/
def isInitializeRequest (b : McpBody) : Bool :=
  match b.json with
  | .obj fields =>
      (match fields.lookup "jsonrpc" with
       | some (.str s) => s == "2.0"
       | _ => false) &&
      (match fields.lookup "method" with
       | some (.str s) => s == "initialize"
       | _ => false)
  | _ => false

/-- The session registry `transports`: a string-keyed JavaScript object
mapping each session identifier to a transport handle, modelled as an
association list of own properties whose values identify transport
instances by a numeric tag.  The object is created as a plain literal
`{}`, so it also inherits the `Object.prototype` properties. -/
abbrev Registry : Type := List (String × Nat)

/-- The property names the plain object literal `{}` inherits from
`Object.prototype`; every one of them has a truthy value (a function, or
for `__proto__` the prototype object itself), so `transports[k]` for these
keys yields a truthy non-transport value even when no session named `k`
was ever registered. -/
def objectProtoProps : List String :=
  ["constructor", "hasOwnProperty", "isPrototypeOf", "propertyIsEnumerable",
   "toLocaleString", "toString", "valueOf", "__proto__",
   "__defineGetter__", "__defineSetter__", "__lookupGetter__",
   "__lookupSetter__"]

/-- The possible results of the JavaScript property access
`transports[k]`: a registered transport handle (an own property), a truthy
value inherited from `Object.prototype` (not a transport), or
`undefined`. -/
inductive Lookup where
  | transport (tid : Nat) : Lookup
  | inherited : Lookup
  | undefined : Lookup
deriving Repr, DecidableEq

/-- JavaScript property access `transports[k]` on the plain object: an own
property shadows the prototype chain; otherwise the lookup walks up to
`Object.prototype` and returns the inherited value for its property names;
only for all other keys is the result `undefined`. -/
def Registry.find (m : Registry) (k : String) : Lookup :=
  match List.lookup k m with
  | some tid => .transport tid
  | none => if k ∈ objectProtoProps then .inherited else .undefined

/-- JavaScript property assignment `transports[sid] = transport`: the key is
bound to the new value, any previous binding for the same key is gone. -/
def Registry.insert (m : Registry) (k : String) (v : Nat) : Registry :=
  (k, v) :: List.filter (fun p => p.1 != k) m

/-- JavaScript `delete transports[sessionId]`. -/
def Registry.erase (m : Registry) (k : String) : Registry :=
  List.filter (fun p => p.1 != k) m

/-- The process-wide state of the session broker: the `transports` registry,
the set of identifiers issued so far in the process lifetime (history used to
state the never-reuse invariant), the tag for the next transport instance
`new StreamableHTTPServerTransport(...)` would create, and the tags of
transports that have been closed. -/
structure ServerState where
  transports : Registry
  issued : List String
  nextTid : Nat
  closed : List Nat
deriving Repr, DecidableEq

/-- The state of a freshly started process: empty registry, nothing issued. -/
def ServerState.init : ServerState :=
  { transports := [], issued := [], nextTid := 0, closed := [] }

/-- The observable outcome of a POST to `/mcp`: the fixed 400 rejection;
delegation of the request to a transport instance
(`transport.handleRequest`); or an HTTP 500 — when the header names an
inherited `Object.prototype` property, the truthy inherited value passes
both `if (!transport)` guards and `transport.handleRequest` raises a
TypeError that the surrounding try/catch answers with
`res.status(500).send(...)`. -/
inductive PostOutcome where
  | rejected (r : HttpResponse) : PostOutcome
  | delegated (tid : Nat) : PostOutcome
  | serverError : PostOutcome

/-- The observable outcome of a DELETE to `/mcp`: a response, or no
response at all — when the header names an inherited `Object.prototype`
property, `transport.close()` raises a TypeError in the async handler,
which has no try/catch, so `res.status(204).end()` is never reached. -/
inductive DeleteOutcome where
  | responded (r : HttpResponse) : DeleteOutcome
  | raised : DeleteOutcome

/-- The `app.post("/mcp")` handler.  `sessionId` is the optional
`mcp-session-id` header, `body` the parsed JSON body, and `freshSid` the
identifier `randomUUID()` produces if a new transport is initialized in this
request.  Modelled from the spec where the SDK is involved: on a new
transport, `transport.handleRequest` of the initialize request invokes the
configured `sessionIdGenerator`, assigns the session id, and fires
`onsessioninitialized(sid)`, which the server code uses to run
`transports[sid] = transport`.  Returns the next state and the outcome. -/
def postMcp (st : ServerState) (sessionId : Option String) (body : McpBody)
    (freshSid : String) : ServerState × PostOutcome :=
  let transport : Lookup :=
    match sessionId with
    | some sid => st.transports.find sid
    | none => .undefined
  match transport with
  | .transport tid => (st, .delegated tid)
  | .inherited => (st, .serverError)
  | .undefined =>
      if isInitializeRequest body then
        let tid := st.nextTid
        ({ st with
            transports := st.transports.insert freshSid tid,
            issued := freshSid :: st.issued,
            nextTid := st.nextTid + 1 },
         .delegated tid)
      else
        (st, .rejected badRequestResponse)

/-- The `app.delete("/mcp")` handler: if `transports[sessionId]` is truthy
the handler calls `transport.close()` and deletes the entry, then answers
204 with no body.  A registered session is closed and removed; an
inherited `Object.prototype` value is truthy but has no `close` method, so
the call raises before any response is sent; otherwise the guard is
skipped and 204 is sent directly. -/
def deleteMcp (st : ServerState) (sessionId : Option String) :
    ServerState × DeleteOutcome :=
  let transport : Lookup :=
    match sessionId with
    | some sid => st.transports.find sid
    | none => .undefined
  match sessionId, transport with
  | some sid, .transport tid =>
      ({ st with
          transports := st.transports.erase sid,
          closed := tid :: st.closed },
       .responded { status := 204, body := none })
  | some _, .inherited => (st, .raised)
  | _, _ => (st, .responded { status := 204, body := none })

/-- Well-formedness of the broker state: registry keys are distinct (at most
one binding per identifier) and every registered identifier was issued. -/
def ServerState.WF (st : ServerState) : Prop :=
  (st.transports.map Prod.fst).Nodup ∧
    ∀ sid, sid ∈ st.transports.map Prod.fst → sid ∈ st.issued

/-! ## The weather_by_city tool handler -/

/-- A JavaScript/JSON number, modelled by its observable renderings: the
handler never computes with upstream numeric values, it only interpolates
them into template strings (`render`, also `String(x)`) or formats them to
two decimals (`toFixed2`, i.e. `x.toFixed(2)`). -/
structure JSNumber where
  render : String
  toFixed2 : String
deriving Repr, DecidableEq

/-- Uppercase hexadecimal digit for a value below 16. -/
def hexDigit (n : Nat) : Char :=
  if n < 10 then Char.ofNat (48 + n) else Char.ofNat (55 + n)

/-- Percent-encoding of one byte: a percent sign followed by two uppercase
hexadecimal digits. -/
def percentEncodeByte (n : Nat) : String :=
  String.mk ['%', hexDigit (n / 16), hexDigit (n % 16)]

/-- UTF-8 encoding of one character as a list of byte values. -/
def utf8Bytes (c : Char) : List Nat :=
  let n := c.toNat
  if n < 0x80 then [n]
  else if n < 0x800 then [0xC0 + n / 64, 0x80 + n % 64]
  else if n < 0x10000 then [0xE0 + n / 4096, 0x80 + (n / 64) % 64, 0x80 + n % 64]
  else [0xF0 + n / 262144, 0x80 + (n / 4096) % 64, 0x80 + (n / 64) % 64, 0x80 + n % 64]

/-- Characters that JavaScript `encodeURIComponent` leaves unescaped:
alphanumerics and `- _ . ! ~ * ( )` and the apostrophe. -/
def uriUnescaped (c : Char) : Bool :=
  c.isAlphanum || c == '-' || c == '_' || c == '.' || c == '!' || c == '~' ||
    c == '*' || c == Char.ofNat 39 || c == '(' || c == ')'

/-- JavaScript `encodeURIComponent`: unescaped characters are kept, every
other character is percent-encoded byte-by-byte in UTF-8. -/
def encodeURIComponent (s : String) : String :=
  String.join (s.toList.map fun c =>
    if uriUnescaped c then String.mk [c]
    else String.join ((utf8Bytes c).map percentEncodeByte))

/-- Characters the `application/x-www-form-urlencoded` serializer (used by
`URLSearchParams.toString`) leaves unescaped: alphanumerics and `* - . _`. -/
def formUnescaped (c : Char) : Bool :=
  c.isAlphanum || c == '*' || c == '-' || c == '.' || c == '_'

/-- The `application/x-www-form-urlencoded` value serializer used by
`URLSearchParams.toString`: space becomes `+`, unescaped characters are
kept, every other character is percent-encoded byte-by-byte in UTF-8. -/
def formUrlEncode (s : String) : String :=
  String.join (s.toList.map fun c =>
    if c == ' ' then "+"
    else if formUnescaped c then String.mk [c]
    else String.join ((utf8Bytes c).map percentEncodeByte))

/-- The geocoding request URL the handler fetches:
`https://geocoding-api.open-meteo.com/v1/search?name=<encoded city>&count=1&language=en&format=json`. -/
def geocodeUrl (city : String) : String :=
  "https://geocoding-api.open-meteo.com/v1/search?name=" ++
    encodeURIComponent city ++ "&count=1&language=en&format=json"

/-- The forecast request URL: `new URL("https://api.open-meteo.com/v1/forecast")`
with the eight query parameters set in source order and serialized by
`url.toString()` (so values go through the form-urlencoded serializer). -/
def forecastUrl (latStr lonStr tempUnit windUnit : String) : String :=
  "https://api.open-meteo.com/v1/forecast?latitude=" ++ formUrlEncode latStr ++
    "&longitude=" ++ formUrlEncode lonStr ++
    "&current=" ++ formUrlEncode "temperature_2m,wind_speed_10m,precipitation" ++
    "&hourly=" ++ formUrlEncode "temperature_2m,precipitation_probability" ++
    "&temperature_unit=" ++ formUrlEncode tempUnit ++
    "&wind_speed_unit=" ++ formUrlEncode windUnit ++
    "&forecast_days=" ++ formUrlEncode "1" ++
    "&timezone=" ++ formUrlEncode "auto"

/-- One entry of the geocoding `results` list, with the fields the handler
reads: `latitude`, `longitude`, `name`, `admin1`, `country_code` (the last
two may be absent). -/
structure Loc where
  latitude : JSNumber
  longitude : JSNumber
  name : String
  admin1 : Option String
  country_code : Option String
deriving Repr, DecidableEq

/-- The geocoding response body: the `results` list may be absent
(`geo.results?.[0]`). -/
structure GeoPayload where
  results : Option (List Loc)
deriving Repr, DecidableEq

/-- A current-conditions object, under either response shape (`wx.current`
or `wx.current_weather`): each field the handler reads may be absent. -/
structure CurrentObj where
  temperature_2m : Option JSNumber
  temperature : Option JSNumber
  wind_speed_10m : Option JSNumber
  windspeed : Option JSNumber
  precipitation : Option JSNumber
deriving Repr, DecidableEq

/-- The empty object `{}` used as final fallback for
`wx.current ?? wx.current_weather ?? {}`. -/
def CurrentObj.empty : CurrentObj :=
  { temperature_2m := none, temperature := none, wind_speed_10m := none,
    windspeed := none, precipitation := none }

/-- The `hourly` object of the forecast response: each of the three parallel
arrays may be absent (`wx.hourly?.time?.slice(0, 6) ?? []` and likewise for
the other two). -/
structure HourlyObj where
  time : Option (List String)
  temperature_2m : Option (List JSNumber)
  precipitation_probability : Option (List JSNumber)
deriving Repr, DecidableEq

/-- The forecast response body, with the parts the handler reads. -/
structure WxPayload where
  current : Option CurrentObj
  current_weather : Option CurrentObj
  hourly : Option HourlyObj
deriving Repr, DecidableEq

/-- An upstream HTTP response as seen through `fetch`: a status code and a
parsed JSON body.  `Response.ok` is derived from the status. -/
structure FetchResp (α : Type) where
  status : Nat
  body : α
deriving Repr, DecidableEq

/-- `Response.ok` of the Fetch standard: true exactly for statuses 200-299. -/
def statusOk (status : Nat) : Bool :=
  200 ≤ status && status < 300

/-- A content block of a tool result: a text block, or a resource link with
uri, name, mime type and description. -/
inductive ContentBlock where
  | text (t : String) : ContentBlock
  | resourceLink (uri : String) (name : String) (mimeType : String)
      (description : String) : ContentBlock
deriving Repr, DecidableEq

/-- The outcome of one tool invocation: a normal result with content blocks,
or a thrown `Error` with its message (surfaced by the SDK as a
tool-execution error). -/
inductive ToolOutcome where
  | ok (content : List ContentBlock) : ToolOutcome
  | error (msg : String) : ToolOutcome
deriving Repr, DecidableEq

/-- An upstream request issued by the handler, with the full URL fetched. -/
inductive UpstreamReq where
  | geocode (url : String) : UpstreamReq
  | forecast (url : String) : UpstreamReq
deriving Repr, DecidableEq

/-- The nullish-coalescing chain `a ?? b ?? "n/a"` interpolated into the
current-conditions line. -/
def renderOr (a b : Option JSNumber) : String :=
  match a with
  | some v => v.render
  | none =>
      match b with
      | some v => v.render
      | none => "n/a"

/-- `current.precipitation ?? "n/a"` interpolated. -/
def renderOr1 (a : Option JSNumber) : String :=
  match a with
  | some v => v.render
  | none => "n/a"

/-- `wx.current ?? wx.current_weather ?? {}`. -/
def resolveCurrent (wx : WxPayload) : CurrentObj :=
  match wx.current with
  | some c => c
  | none =>
      match wx.current_weather with
      | some c => c
      | none => CurrentObj.empty

/-- `wx.hourly?.time?.slice(0, 6) ?? []`. -/
def hourlyTimes (wx : WxPayload) : List String :=
  match wx.hourly with
  | some h =>
      match h.time with
      | some ts => ts.take 6
      | none => []
  | none => []

/-- `wx.hourly?.temperature_2m?.slice(0, 6) ?? []`. -/
def hourlyTemps (wx : WxPayload) : List JSNumber :=
  match wx.hourly with
  | some h =>
      match h.temperature_2m with
      | some ts => ts.take 6
      | none => []
  | none => []

/-- `wx.hourly?.precipitation_probability?.slice(0, 6) ?? []`. -/
def hourlyPops (wx : WxPayload) : List JSNumber :=
  match wx.hourly with
  | some h =>
      match h.precipitation_probability with
      | some ps => ps.take 6
      | none => []
  | none => []

/-- JavaScript array indexing `xs[i]` interpolated into a template literal:
past the end of the array the value is `undefined` and renders as the
literal text "undefined". -/
def jsIndexRender (xs : List JSNumber) (i : Nat) : String :=
  match xs.get? i with
  | some v => v.render
  | none => "undefined"

/-- `hours[i]` inside the loop (always in bounds since the loop runs to
`hours.length`). -/
def jsIndexStr (xs : List String) (i : Nat) : String :=
  match xs.get? i with
  | some s => s
  | none => "undefined"

/-- The line the loop body appends for index `i`:
`"\n  " + t + ": " + temps[i] + "°, " + pops[i] + "%"`, where `t` is
`new Date(hours[i]).toLocaleTimeString("en-US", {hour: "numeric"})`,
abstracted as the `renderTime` parameter. -/
def hourlyLine (renderTime : String → String) (hours : List String)
    (temps pops : List JSNumber) (i : Nat) : String :=
  "\n  " ++ renderTime (jsIndexStr hours i) ++ ": " ++
    jsIndexRender temps i ++ "°, " ++ jsIndexRender pops i ++ "%"

/-- The list of lines produced by
`for (let i = 0; i < hours.length; i++) ...`, one per loop iteration in
order. -/
def hourlyLineList (renderTime : String → String) (wx : WxPayload) :
    List String :=
  (List.range (hourlyTimes wx).length).map
    (hourlyLine renderTime (hourlyTimes wx) (hourlyTemps wx) (hourlyPops wx))

/-- The resolved place name
`` `${loc.name}, ${loc.admin1 ?? ""} ${loc.country_code ?? ""}`.trim() ``. -/
def displayName (loc : Loc) : String :=
  (loc.name ++ ", " ++ (loc.admin1.getD "") ++ " " ++
    (loc.country_code.getD "")).trim

/-- The full text summary built by the handler: header with place name and
coordinates, the current-conditions line, and the hourly section. -/
def summaryText (loc : Loc) (isMetric : Bool) (wx : WxPayload)
    (renderTime : String → String) : String :=
  let current := resolveCurrent wx
  "Weather for " ++ displayName loc ++ " (" ++ loc.latitude.toFixed2 ++
    ", " ++ loc.longitude.toFixed2 ++ ")\n" ++
    "Now: " ++ renderOr current.temperature_2m current.temperature ++ "°" ++
    (if isMetric then "C" else "F") ++ ", wind " ++
    renderOr current.wind_speed_10m current.windspeed ++ " " ++
    (if isMetric then "km/h" else "mph") ++ ", precip " ++
    renderOr1 current.precipitation ++ "\n" ++
    "Next 6 hours (temp, pop%):" ++
    String.join (hourlyLineList renderTime wx)

/-- The `weather_by_city` tool handler.  Inputs are the validated arguments
`city` and `units`, oracles for the two upstream responses (what the
geocoding and forecast collaborators would answer), and the locale time
renderer (`new Date(...).toLocaleTimeString("en-US", {hour: "numeric"})`),
abstracted since it is environment-dependent.  Returns the ordered list of
upstream requests actually issued together with the outcome. -/
def weatherByCity (city : String) (units : String)
    (geoResp : FetchResp GeoPayload) (wxResp : FetchResp WxPayload)
    (renderTime : String → String) : List UpstreamReq × ToolOutcome :=
  let geoUrl := geocodeUrl city
  if !statusOk geoResp.status then
    ([.geocode geoUrl], .error ("Geocoding failed: " ++ toString geoResp.status))
  else
    let loc? : Option Loc :=
      match geoResp.body.results with
      | some (l :: _) => some l
      | _ => none
    match loc? with
    | none =>
        ([.geocode geoUrl],
         .ok [.text ("No match for \"" ++ city ++
           "\". Try including state/country (e.g., \"Nashik, IN\").")])
    | some loc =>
        let isMetric := units != "imperial"
        let tempUnit := if isMetric then "celsius" else "fahrenheit"
        let windUnit := if isMetric then "kmh" else "mph"
        let url := forecastUrl loc.latitude.render loc.longitude.render
          tempUnit windUnit
        if !statusOk wxResp.status then
          ([.geocode geoUrl, .forecast url],
           .error ("Forecast failed: " ++ toString wxResp.status))
        else
          ([.geocode geoUrl, .forecast url],
           .ok [.text (summaryText loc isMetric wxResp.body renderTime),
                .resourceLink url "Open-Meteo API call" "application/json"
                  "Raw forecast JSON"])

/-- The zod input schema's default: `units: z.enum(["metric", "imperial"])
.default("metric")` — an omitted `units` argument reaches the handler as
"metric". -/
def applyUnitsDefault (units : Option String) : String :=
  units.getD "metric"

/-! ## Generic helper lemmas -/

/-- Substring containment: `sub` occurs contiguously inside `s`. -/
def strContains (sub s : String) : Prop :=
  sub.data <:+: s.data

instance (sub s : String) : Decidable (strContains sub s) := by
  unfold strContains
  infer_instance

theorem strContains_refl (s : String) : strContains s s :=
  ⟨[], [], by simp⟩

theorem strContains_append_right {sub t : String} (s : String)
    (h : strContains sub t) : strContains sub (s ++ t) := by
  unfold strContains at h ⊢
  rw [String.data_append]
  obtain ⟨p, q, hpq⟩ := h
  refine ⟨s.data ++ p, q, ?_⟩
  rw [← hpq]
  simp [List.append_assoc]

theorem strContains_append_left {sub s : String} (t : String)
    (h : strContains sub s) : strContains sub (s ++ t) := by
  unfold strContains at h ⊢
  rw [String.data_append]
  obtain ⟨p, q, hpq⟩ := h
  refine ⟨p, q ++ t.data, ?_⟩
  rw [← hpq]
  simp [List.append_assoc]

theorem lookup_filter_ne (m : Registry) (k k' : String) (h : k' ≠ k) :
    List.lookup k' (List.filter (fun p => p.1 != k) m) = List.lookup k' m := by
  induction m with
  | nil => rfl
  | cons hd tl ih =>
      obtain ⟨a, b⟩ := hd
      by_cases hk : a = k
      · subst hk
        have hne : (k' == a) = false := by simp [h]
        simp [List.filter_cons, List.lookup_cons, hne, ih]
      · have : ((a, b).1 != k) = true := by simp [hk]
        by_cases hk' : k' = a
        · subst hk'
          simp [List.filter_cons, this, List.lookup_cons]
        · have hne : (k' == a) = false := by simp [hk']
          simp [List.filter_cons, this, List.lookup_cons, hne, ih]

theorem find_insert_self (m : Registry) (k : String) (v : Nat) :
    (m.insert k v).find k = .transport v := by
  simp [Registry.find, Registry.insert, List.lookup_cons]

theorem lookup_erase_self (m : Registry) (k : String) :
    List.lookup k (m.erase k) = none := by
  unfold Registry.erase
  induction m with
  | nil => rfl
  | cons hd tl ih =>
      obtain ⟨a, b⟩ := hd
      by_cases hk : a = k
      · subst hk
        simp [List.filter_cons, ih]
      · have hab : ((a, b).1 != k) = true := by simp [hk]
        have hka : ¬k = a := fun h2 => hk h2.symm
        have hne : (k == a) = false := by simp [hka]
        simp [List.filter_cons, hab, List.lookup_cons, hne, ih]

theorem find_erase_self (m : Registry) (k : String)
    (hk : k ∉ objectProtoProps) : (m.erase k).find k = .undefined := by
  unfold Registry.find
  rw [lookup_erase_self m k]
  simp [hk]

theorem keys_nodup_insert (m : Registry) (k : String) (v : Nat)
    (h : (m.map Prod.fst).Nodup) :
    ((Registry.insert m k v).map Prod.fst).Nodup := by
  unfold Registry.insert
  simp only [List.map_cons]
  refine List.nodup_cons.2 ⟨?_, ?_⟩
  · intro hmem
    obtain ⟨p, hp, hfst⟩ := List.mem_map.1 hmem
    have := (List.mem_filter.1 hp).2
    simp only [bne_iff_ne, ne_eq, decide_eq_true_eq] at this
    exact this hfst
  · exact h.sublist ((List.filter_sublist _).map Prod.fst)

theorem keys_subset_filter (m : Registry) (k : String) (sid : String)
    (h : sid ∈ (List.filter (fun p => p.1 != k) m).map Prod.fst) :
    sid ∈ m.map Prod.fst := by
  obtain ⟨p, hp, hfst⟩ := List.mem_map.1 h
  exact List.mem_map.2 ⟨p, (List.mem_filter.1 hp).1, hfst⟩

/-- Sample broker state used by the closed witness theorems: one registered
session "sess-a" owned by transport 0. -/
def stSample : ServerState :=
  { transports := [("sess-a", 0)], issued := ["sess-a"], nextTid := 1,
    closed := [] }

/-- Sample non-initialize body (a JSON null is not an initialize request). -/
def nonInitBody : McpBody :=
  { json := .null }

/-- Sample well-formed initialize request body. -/
def initBody : McpBody :=
  { json := .obj [("jsonrpc", .str "2.0"), ("id", .num 1),
                  ("method", .str "initialize"), ("params", .obj [])] }

/-! ## Claim theorems: session broker -/

/-- C1 counterexample: with the header `mcp-session-id: constructor` no
session is registered (`List.lookup` on the own properties is `none`) and
the body is not an initialize request, yet the handler does not answer the
400 JSON-RPC rejection: `transports["constructor"]` yields the truthy
inherited `Object.prototype.constructor`, both guards are skipped, and
`transport.handleRequest` raises, so the try/catch answers HTTP 500. -/
theorem post_proto_header_500_counterexample :
    (List.lookup "constructor" ServerState.init.transports = none) ∧
    (isInitializeRequest nonInitBody = false) ∧
    (postMcp ServerState.init (some "constructor") nonInitBody "fresh-1" =
      (ServerState.init, .serverError)) ∧
    (PostOutcome.serverError ≠ .rejected badRequestResponse) :=
  ⟨rfl, rfl, rfl, fun h => PostOutcome.noConfusion h⟩

/-- C1 (amended): a POST /mcp whose mcp-session-id header is absent, or
names a key that is neither a registered session nor an inherited
`Object.prototype` property (the lookup is `undefined`), with a body that
is not a well-formed initialization request, is answered with HTTP 400
carrying exactly the JSON-RPC body `{jsonrpc: "2.0", error:
{code: -32000, message: "Bad Request: No valid session ID provided"},
id: null}`, and the server state (in particular the session registry) is
left unchanged.  A header naming an inherited `Object.prototype` property
instead yields HTTP 500 with no state change. -/
theorem post_without_valid_session_returns_400 (st : ServerState)
    (sessionId : Option String) (body : McpBody) (freshSid : String)
    (hsid : ∀ sid, sessionId = some sid → st.transports.find sid = .undefined)
    (hinit : isInitializeRequest body = false) :
    (postMcp st sessionId body freshSid =
      (st, .rejected badRequestResponse)) ∧
    (∀ sid, sessionId = some sid →
      List.lookup sid st.transports = none) ∧
    (∀ st2 : ServerState, ∀ sid2 body2 fresh2,
      st2.transports.find sid2 = .inherited →
      postMcp st2 (some sid2) body2 fresh2 = (st2, .serverError)) := by
  refine ⟨?_, ?_, ?_⟩
  · unfold postMcp
    cases sessionId with
    | none => simp [hinit]
    | some sid => simp [hsid sid rfl, hinit]
  · intro sid hs
    have h1 := hsid sid hs
    unfold Registry.find at h1
    cases hl : List.lookup sid st.transports with
    | none => rfl
    | some tid =>
        rw [hl] at h1
        exact Lookup.noConfusion h1
  · intro st2 sid2 body2 fresh2 hf
    unfold postMcp
    simp [hf]

theorem post_without_valid_session_returns_400_witness :
    postMcp stSample (some "sess-b") nonInitBody "fresh-1" =
      (stSample, .rejected badRequestResponse) :=
  (post_without_valid_session_returns_400 stSample (some "sess-b")
    nonInitBody "fresh-1" (fun sid h => by cases h; decide) rfl).1

/-- C2 counterexample: a well-formed initialization request whose header is
`mcp-session-id: constructor` — a name under which no session is
registered — registers nothing: the truthy inherited `Object.prototype`
property makes `!transport` false, so no transport is constructed, no
identifier is issued, the state is unchanged and the request ends in
HTTP 500 instead of a delegated initialize exchange. -/
theorem init_proto_header_no_registration_counterexample :
    (List.lookup "constructor" ServerState.init.transports = none) ∧
    (isInitializeRequest initBody = true) ∧
    (postMcp ServerState.init (some "constructor") initBody "fresh-1" =
      (ServerState.init, .serverError)) ∧
    (List.lookup "fresh-1"
      (postMcp ServerState.init (some "constructor") initBody
        "fresh-1").1.transports = none) :=
  ⟨by decide, by decide, rfl, by decide⟩

/-- C2 (amended): a valid initialization request whose header is absent or
resolves to `undefined` (it names neither a registered session nor an
inherited `Object.prototype` property) registers the freshly generated
identifier (which, by the modelled contract of `randomUUID`, was never
previously issued in the process lifetime) for the newly constructed
transport; the registry keeps at most one live transport handle per
identifier (well-formedness is preserved); every subsequent request
bearing that identifier — and generally any identifier while its entry is
present — is delegated to that same transport. -/
theorem session_ids_fresh_and_stable (st : ServerState)
    (sessionId : Option String) (body : McpBody) (freshSid : String)
    (hwf : st.WF) (hfresh : freshSid ∉ st.issued)
    (hsid : ∀ sid, sessionId = some sid → st.transports.find sid = .undefined)
    (hinit : isInitializeRequest body = true) :
    (freshSid ∉ st.issued) ∧
    ((postMcp st sessionId body freshSid).1.transports.find freshSid =
      .transport st.nextTid) ∧
    ((postMcp st sessionId body freshSid).1.issued = freshSid :: st.issued) ∧
    (postMcp st sessionId body freshSid).1.WF ∧
    (∀ body2 fresh2,
      postMcp (postMcp st sessionId body freshSid).1 (some freshSid) body2
          fresh2 =
        ((postMcp st sessionId body freshSid).1, .delegated st.nextTid)) ∧
    (∀ st2 : ServerState, ∀ sid tid body2 fresh2,
      st2.transports.find sid = .transport tid →
      postMcp st2 (some sid) body2 fresh2 = (st2, .delegated tid)) := by
  have hred : postMcp st sessionId body freshSid =
      ({ st with
          transports := st.transports.insert freshSid st.nextTid,
          issued := freshSid :: st.issued,
          nextTid := st.nextTid + 1 },
       .delegated st.nextTid) := by
    unfold postMcp
    cases sessionId with
    | none => simp [hinit]
    | some sid => simp [hsid sid rfl, hinit]
  have hdeleg : ∀ st2 : ServerState, ∀ sid tid body2 fresh2,
      st2.transports.find sid = .transport tid →
      postMcp st2 (some sid) body2 fresh2 = (st2, .delegated tid) := by
    intro st2 sid tid body2 fresh2 hfind
    unfold postMcp
    simp [hfind]
  refine ⟨hfresh, ?_, ?_, ?_, ?_, hdeleg⟩
  · rw [hred]
    exact find_insert_self st.transports freshSid st.nextTid
  · rw [hred]
  · rw [hred]
    constructor
    · exact keys_nodup_insert st.transports freshSid st.nextTid hwf.1
    · intro sid hmem
      unfold Registry.insert at hmem
      simp only [List.map_cons] at hmem
      rcases List.mem_cons.1 hmem with h | h
      · exact h ▸ List.mem_cons_self _ _
      · exact List.mem_cons_of_mem _
          (hwf.2 sid (keys_subset_filter st.transports freshSid sid h))
  · intro body2 fresh2
    apply hdeleg
    rw [hred]
    exact find_insert_self st.transports freshSid st.nextTid

theorem session_ids_fresh_and_stable_witness :
    ((postMcp stSample none initBody "fresh-2").1.transports.find "fresh-2" =
      .transport 1) ∧
    (postMcp (postMcp stSample none initBody "fresh-2").1 (some "fresh-2")
        nonInitBody "fresh-3" =
      ((postMcp stSample none initBody "fresh-2").1, .delegated 1)) := by
  have h := session_ids_fresh_and_stable stSample none initBody "fresh-2"
    ⟨by decide, by decide⟩ (by decide) (fun sid hs => by cases hs) (by decide)
  exact ⟨h.2.1, h.2.2.2.2.1 nonInitBody "fresh-3"⟩

/-- C3 counterexample: DELETE /mcp does not always answer 204: with the
header `mcp-session-id: constructor` (no such session registered) the
inherited `Object.prototype` value is truthy, `transport.close()` raises a
TypeError in the async handler, which has no try/catch, and no response is
sent at all. -/
theorem delete_proto_header_raises_counterexample :
    (List.lookup "constructor" ServerState.init.transports = none) ∧
    (deleteMcp ServerState.init (some "constructor") =
      (ServerState.init, .raised)) ∧
    (DeleteOutcome.raised ≠
      .responded { status := 204, body := none }) :=
  ⟨by decide, rfl, fun h => DeleteOutcome.noConfusion h⟩

/-- C3 (amended): DELETE /mcp answers 204 (body-less) for every header
that does not resolve to an inherited `Object.prototype` property —
whether or not the named session exists; with a header naming an inherited
property the handler instead raises an uncaught TypeError and sends no
response.  Deleting a registered session (whose identifier, a generated
UUID, is never an `Object.prototype` property name) removes its registry
entry and closes its transport; a later non-initialize POST bearing that
identifier is rejected with the same 400 response an identifier never
issued (fresh process state) would get; and a second DELETE for the same
identifier leaves the state unchanged. -/
theorem delete_session_idempotent (st : ServerState) (sid : String)
    (tid : Nat) (hproto : sid ∉ objectProtoProps)
    (h : st.transports.find sid = .transport tid) :
    (∀ sessionId : Option String,
      (∀ k, sessionId = some k → st.transports.find k ≠ .inherited) →
      (deleteMcp st sessionId).2 =
        .responded { status := 204, body := none }) ∧
    (∀ st2 : ServerState, ∀ k, st2.transports.find k = .inherited →
      deleteMcp st2 (some k) = (st2, .raised)) ∧
    ((deleteMcp st (some sid)).1.transports.find sid = .undefined) ∧
    (tid ∈ (deleteMcp st (some sid)).1.closed) ∧
    (∀ body fresh, isInitializeRequest body = false →
      postMcp (deleteMcp st (some sid)).1 (some sid) body fresh =
        ((deleteMcp st (some sid)).1, .rejected badRequestResponse) ∧
      (postMcp (deleteMcp st (some sid)).1 (some sid) body fresh).2 =
        (postMcp ServerState.init (some sid) body fresh).2) ∧
    (deleteMcp (deleteMcp st (some sid)).1 (some sid) =
      ((deleteMcp st (some sid)).1,
        .responded { status := 204, body := none })) := by
  have hred : deleteMcp st (some sid) =
      ({ st with
          transports := st.transports.erase sid,
          closed := tid :: st.closed },
       .responded { status := 204, body := none }) := by
    unfold deleteMcp
    simp [h]
  have hgone : (deleteMcp st (some sid)).1.transports.find sid = .undefined := by
    rw [hred]
    exact find_erase_self st.transports sid hproto
  have hinitfind : ServerState.init.transports.find sid = .undefined := by
    unfold Registry.find ServerState.init
    simp [hproto]
  refine ⟨?_, ?_, hgone, ?_, ?_, ?_⟩
  · intro sessionId hnoinh
    unfold deleteMcp
    cases sessionId with
    | none => simp
    | some s =>
        cases hfind : st.transports.find s with
        | transport t => simp [hfind]
        | inherited => exact absurd hfind (hnoinh s rfl)
        | undefined => simp [hfind]
  · intro st2 k hf
    unfold deleteMcp
    simp [hf]
  · rw [hred]
    exact List.mem_cons_self _ _
  · intro body fresh hinit
    have hrej : ∀ st2 : ServerState, st2.transports.find sid = .undefined →
        postMcp st2 (some sid) body fresh =
          (st2, .rejected badRequestResponse) := by
      intro st2 hf
      unfold postMcp
      simp [hf, hinit]
    refine ⟨hrej _ hgone, ?_⟩
    rw [hrej _ hgone, hrej ServerState.init hinitfind]
  · have hnoop : ∀ st2 : ServerState, st2.transports.find sid = .undefined →
        deleteMcp st2 (some sid) =
          (st2, .responded { status := 204, body := none }) := by
      intro st2 hf
      unfold deleteMcp
      simp [hf]
    exact hnoop _ hgone

theorem delete_session_idempotent_witness :
    ((deleteMcp stSample (some "sess-a")).1.transports.find "sess-a" =
      .undefined) ∧
    (deleteMcp (deleteMcp stSample (some "sess-a")).1 (some "sess-a") =
      ((deleteMcp stSample (some "sess-a")).1,
        .responded { status := 204, body := none })) := by
  have h := delete_session_idempotent stSample "sess-a" 0 (by decide)
    (by decide)
  exact ⟨h.2.2.1, h.2.2.2.2.2⟩

/-! ## Helper lemmas and sample data for the tool handler -/

/-- Chunk lemma: a substring of `a ++ b` also occurs in `a ++ (b ++ rest)`. -/
theorem strContains_chunk2 (a b rest sub : String)
    (h : strContains sub (a ++ b)) :
    strContains sub (a ++ (b ++ rest)) := by
  rw [← String.append_assoc]
  exact strContains_append_left rest h

/-- Chunk lemma: a substring of `a ++ (b ++ c)` also occurs in
`a ++ (b ++ (c ++ rest))`. -/
theorem strContains_chunk3 (a b c rest sub : String)
    (h : strContains sub (a ++ (b ++ c))) :
    strContains sub (a ++ (b ++ (c ++ rest))) := by
  have he : a ++ (b ++ (c ++ rest)) = (a ++ (b ++ c)) ++ rest := by
    simp [String.append_assoc]
  rw [he]
  exact strContains_append_left rest h

/-- Reduction of the tool handler on the success path: geocoding answered
2xx with at least one result, forecast answered 2xx. -/
theorem weatherByCity_success (city units : String)
    (geoResp : FetchResp GeoPayload) (wxResp : FetchResp WxPayload)
    (renderTime : String → String) (loc : Loc) (rest : List Loc)
    (hgeo : statusOk geoResp.status = true)
    (hres : geoResp.body.results = some (loc :: rest))
    (hwx : statusOk wxResp.status = true) :
    weatherByCity city units geoResp wxResp renderTime =
      ([.geocode (geocodeUrl city),
        .forecast (forecastUrl loc.latitude.render loc.longitude.render
          (if units != "imperial" then "celsius" else "fahrenheit")
          (if units != "imperial" then "kmh" else "mph"))],
       .ok [.text (summaryText loc (units != "imperial") wxResp.body
              renderTime),
            .resourceLink (forecastUrl loc.latitude.render
                loc.longitude.render
                (if units != "imperial" then "celsius" else "fahrenheit")
                (if units != "imperial" then "kmh" else "mph"))
              "Open-Meteo API call" "application/json"
              "Raw forecast JSON"]) := by
  unfold weatherByCity
  simp [hgeo, hres, hwx]

/-- Sample geocoding hit used by witnesses. -/
def sampleLoc : Loc :=
  { latitude := { render := "18.5", toFixed2 := "18.50" },
    longitude := { render := "73.8", toFixed2 := "73.80" },
    name := "Pune", admin1 := some "Maharashtra", country_code := some "IN" }

/-- Sample successful geocoding response. -/
def sampleGeoResp : FetchResp GeoPayload :=
  { status := 200, body := { results := some [sampleLoc] } }

/-- Sample successful geocoding response with an empty results list. -/
def emptyGeoResp : FetchResp GeoPayload :=
  { status := 200, body := { results := some [] } }

/-- Sample successful forecast response. -/
def sampleWxResp : FetchResp WxPayload :=
  { status := 200,
    body :=
      { current := some
          { temperature_2m := some { render := "21", toFixed2 := "21.00" },
            temperature := none,
            wind_speed_10m := some { render := "5", toFixed2 := "5.00" },
            windspeed := none,
            precipitation := none },
        current_weather := none,
        hourly := some
          { time := some ["00:00", "01:00", "02:00"],
            temperature_2m := some [{ render := "20", toFixed2 := "20.00" }],
            precipitation_probability := none } } }

/-- Sample forecast response whose hourly arrays are all empty. -/
def emptyHourlyWxResp : FetchResp WxPayload :=
  { status := 200,
    body :=
      { current := some
          { temperature_2m := some { render := "21", toFixed2 := "21.00" },
            temperature := none,
            wind_speed_10m := none,
            windspeed := none,
            precipitation := none },
        current_weather := none,
        hourly := some
          { time := some [], temperature_2m := some [],
            precipitation_probability := some [] } } }

/-! ## Claim theorems: weather_by_city -/

/-- C4: when geocoding succeeds but its results list is empty, the tool
returns a normal (non-error) result whose single text block names the input
city literally and suggests disambiguation, and no forecast request is
issued (the upstream trace is just the geocoding call). -/
theorem geocode_no_match_normal_result (city units : String)
    (geoResp : FetchResp GeoPayload) (wxResp : FetchResp WxPayload)
    (renderTime : String → String)
    (hgeo : statusOk geoResp.status = true)
    (hres : geoResp.body.results = some []) :
    weatherByCity city units geoResp wxResp renderTime =
      ([.geocode (geocodeUrl city)],
       .ok [.text ("No match for \"" ++ city ++
         "\". Try including state/country (e.g., \"Nashik, IN\").")]) ∧
    strContains city ("No match for \"" ++ city ++
      "\". Try including state/country (e.g., \"Nashik, IN\").") := by
  constructor
  · unfold weatherByCity
    simp [hgeo, hres]
  · apply strContains_append_left
    apply strContains_append_right
    exact strContains_refl _

theorem geocode_no_match_normal_result_witness :
    weatherByCity "Zzxqy" "metric" emptyGeoResp sampleWxResp id =
      ([.geocode (geocodeUrl "Zzxqy")],
       .ok [.text ("No match for \"" ++ "Zzxqy" ++
         "\". Try including state/country (e.g., \"Nashik, IN\").")]) :=
  (geocode_no_match_normal_result "Zzxqy" "metric" emptyGeoResp sampleWxResp
    id (by decide) (by decide)).1

/-- C5: a non-2xx geocoding status fails the call with the "Geocoding
failed" error carrying the status code and only the geocoding request in
the trace; with a successful geocoding hit, a non-2xx forecast status fails
the call with the "Forecast failed" error carrying the status code; both
failures only produce an error outcome for this one invocation. -/
theorem upstream_status_error_messages (city units : String)
    (geoResp : FetchResp GeoPayload) (wxResp : FetchResp WxPayload)
    (renderTime : String → String) :
    (statusOk geoResp.status = false →
      weatherByCity city units geoResp wxResp renderTime =
        ([.geocode (geocodeUrl city)],
         .error ("Geocoding failed: " ++ toString geoResp.status))) ∧
    (∀ loc rest, statusOk geoResp.status = true →
      geoResp.body.results = some (loc :: rest) →
      statusOk wxResp.status = false →
      weatherByCity city units geoResp wxResp renderTime =
        ([.geocode (geocodeUrl city),
          .forecast (forecastUrl loc.latitude.render loc.longitude.render
            (if units != "imperial" then "celsius" else "fahrenheit")
            (if units != "imperial" then "kmh" else "mph"))],
         .error ("Forecast failed: " ++ toString wxResp.status))) := by
  constructor
  · intro hgeo
    unfold weatherByCity
    simp [hgeo]
  · intro loc rest hgeo hres hwx
    unfold weatherByCity
    simp [hgeo, hres, hwx]

theorem upstream_status_error_messages_witness :
    ((weatherByCity "Pune" "metric" { status := 404, body := { results := none } }
        sampleWxResp id).2 = .error ("Geocoding failed: " ++ toString 404)) ∧
    ((weatherByCity "Pune" "metric" sampleGeoResp
        { sampleWxResp with status := 500 } id).2 =
      .error ("Forecast failed: " ++ toString 500)) := by
  constructor
  · rw [(upstream_status_error_messages "Pune" "metric"
      { status := 404, body := { results := none } } sampleWxResp id).1
      (by decide)]
  · rw [(upstream_status_error_messages "Pune" "metric" sampleGeoResp
      { sampleWxResp with status := 500 } id).2 sampleLoc [] (by decide)
      (by decide) (by decide)]

/-- C9: within one invocation the upstream trace always starts with the
geocoding request, contains it exactly once, contains at most one forecast
request, and contains a forecast request only when the geocoding call
returned 2xx and yielded a location — in which case the trace is exactly
geocode followed by forecast (strictly sequential, each attempted once). -/
theorem upstream_calls_sequential_once (city units : String)
    (geoResp : FetchResp GeoPayload) (wxResp : FetchResp WxPayload)
    (renderTime : String → String) :
    ((weatherByCity city units geoResp wxResp renderTime).1.head? =
      some (.geocode (geocodeUrl city))) ∧
    (List.countP (fun q => match q with | .geocode _ => true | _ => false)
      (weatherByCity city units geoResp wxResp renderTime).1 = 1) ∧
    (List.countP (fun q => match q with | .forecast _ => true | _ => false)
      (weatherByCity city units geoResp wxResp renderTime).1 ≤ 1) ∧
    (∀ u, UpstreamReq.forecast u ∈
        (weatherByCity city units geoResp wxResp renderTime).1 →
      statusOk geoResp.status = true ∧
      (∃ loc rest, geoResp.body.results = some (loc :: rest)) ∧
      (weatherByCity city units geoResp wxResp renderTime).1 =
        [.geocode (geocodeUrl city), .forecast u]) := by
  cases hgeo : statusOk geoResp.status with
  | false =>
      have hw : (weatherByCity city units geoResp wxResp renderTime).1 =
          [.geocode (geocodeUrl city)] := by
        unfold weatherByCity
        simp [hgeo]
      rw [hw]
      refine ⟨rfl, rfl, by simp [List.countP_cons, List.countP_nil], ?_⟩
      intro u hu
      simp at hu
  | true =>
      cases hres : geoResp.body.results with
      | none =>
          have hw : (weatherByCity city units geoResp wxResp renderTime).1 =
              [.geocode (geocodeUrl city)] := by
            unfold weatherByCity
            simp [hgeo, hres]
          rw [hw]
          refine ⟨rfl, rfl, by simp [List.countP_cons, List.countP_nil], ?_⟩
          intro u hu
          simp at hu
      | some results =>
          cases results with
          | nil =>
              have hw : (weatherByCity city units geoResp wxResp
                  renderTime).1 = [.geocode (geocodeUrl city)] := by
                unfold weatherByCity
                simp [hgeo, hres]
              rw [hw]
              refine ⟨rfl, rfl, by simp [List.countP_cons, List.countP_nil],
                ?_⟩
              intro u hu
              simp at hu
          | cons loc rest =>
              have hw : (weatherByCity city units geoResp wxResp
                  renderTime).1 =
                  [.geocode (geocodeUrl city),
                   .forecast (forecastUrl loc.latitude.render
                     loc.longitude.render
                     (if units != "imperial" then "celsius" else "fahrenheit")
                     (if units != "imperial" then "kmh" else "mph"))] := by
                unfold weatherByCity
                cases hwx : statusOk wxResp.status with
                | false => simp [hgeo, hres, hwx]
                | true => simp [hgeo, hres, hwx]
              rw [hw]
              refine ⟨rfl, rfl, by simp [List.countP_cons, List.countP_nil],
                ?_⟩
              intro u hu
              rcases List.mem_cons.1 hu with h1 | h1
              · exact UpstreamReq.noConfusion h1
              · have h2 := List.mem_singleton.1 h1
                have hu2 : u = forecastUrl loc.latitude.render
                    loc.longitude.render
                    (if units != "imperial" then "celsius" else "fahrenheit")
                    (if units != "imperial" then "kmh" else "mph") := by
                  injection h2
                refine ⟨rfl, ⟨loc, rest, rfl⟩, ?_⟩
                rw [hu2]

theorem upstream_calls_sequential_once_witness :
    (weatherByCity "Pune" "metric" sampleGeoResp sampleWxResp id).1.head? =
      some (.geocode (geocodeUrl "Pune")) :=
  (upstream_calls_sequential_once "Pune" "metric" sampleGeoResp sampleWxResp
    id).1

/-- C6: on a successful invocation, with `units = "imperial"` the forecast
request and the resource-link URI (they are the same URL) carry
`temperature_unit=fahrenheit` and `wind_speed_unit=mph` and the formatted
text uses "°F" and " mph"; with `units = "metric"` — which is also what an
omitted `units` argument defaults to — they carry
`temperature_unit=celsius` and `wind_speed_unit=kmh` and the text uses "°C"
and " km/h". -/
theorem units_selection (city : String) (geoResp : FetchResp GeoPayload)
    (wxResp : FetchResp WxPayload) (renderTime : String → String)
    (loc : Loc) (rest : List Loc)
    (hgeo : statusOk geoResp.status = true)
    (hres : geoResp.body.results = some (loc :: rest))
    (hwx : statusOk wxResp.status = true) :
    (applyUnitsDefault none = "metric") ∧
    (weatherByCity city "imperial" geoResp wxResp renderTime =
      ([.geocode (geocodeUrl city),
        .forecast (forecastUrl loc.latitude.render loc.longitude.render
          "fahrenheit" "mph")],
       .ok [.text (summaryText loc false wxResp.body renderTime),
            .resourceLink (forecastUrl loc.latitude.render
                loc.longitude.render "fahrenheit" "mph")
              "Open-Meteo API call" "application/json"
              "Raw forecast JSON"])) ∧
    strContains "temperature_unit=fahrenheit"
      (forecastUrl loc.latitude.render loc.longitude.render "fahrenheit"
        "mph") ∧
    strContains "wind_speed_unit=mph"
      (forecastUrl loc.latitude.render loc.longitude.render "fahrenheit"
        "mph") ∧
    strContains "°F" (summaryText loc false wxResp.body renderTime) ∧
    strContains " mph" (summaryText loc false wxResp.body renderTime) ∧
    (weatherByCity city "metric" geoResp wxResp renderTime =
      ([.geocode (geocodeUrl city),
        .forecast (forecastUrl loc.latitude.render loc.longitude.render
          "celsius" "kmh")],
       .ok [.text (summaryText loc true wxResp.body renderTime),
            .resourceLink (forecastUrl loc.latitude.render
                loc.longitude.render "celsius" "kmh")
              "Open-Meteo API call" "application/json"
              "Raw forecast JSON"])) ∧
    strContains "temperature_unit=celsius"
      (forecastUrl loc.latitude.render loc.longitude.render "celsius"
        "kmh") ∧
    strContains "wind_speed_unit=kmh"
      (forecastUrl loc.latitude.render loc.longitude.render "celsius"
        "kmh") ∧
    strContains "°C" (summaryText loc true wxResp.body renderTime) ∧
    strContains " km/h" (summaryText loc true wxResp.body renderTime) := by
  have himp : ("imperial" != "imperial") = false := by decide
  have hmet : ("metric" != "imperial") = true := by decide
  refine ⟨rfl, ?_, ?_, ?_, ?_, ?_, ?_, ?_, ?_, ?_, ?_⟩
  · rw [weatherByCity_success city "imperial" geoResp wxResp renderTime loc
      rest hgeo hres hwx]
    simp [himp]
  · unfold forecastUrl
    simp only [String.append_assoc]
    apply strContains_append_right
    apply strContains_append_right
    apply strContains_append_right
    apply strContains_append_right
    apply strContains_append_right
    apply strContains_append_right
    apply strContains_append_right
    apply strContains_append_right
    rw [← String.append_assoc]
    apply strContains_append_left
    decide
  · unfold forecastUrl
    simp only [String.append_assoc]
    apply strContains_append_right
    apply strContains_append_right
    apply strContains_append_right
    apply strContains_append_right
    apply strContains_append_right
    apply strContains_append_right
    apply strContains_append_right
    apply strContains_append_right
    apply strContains_append_right
    apply strContains_append_right
    rw [← String.append_assoc]
    apply strContains_append_left
    decide
  · unfold summaryText
    simp only [Bool.false_eq_true, if_false]
    simp only [String.append_assoc]
    apply strContains_append_right
    apply strContains_append_right
    apply strContains_append_right
    apply strContains_append_right
    apply strContains_append_right
    apply strContains_append_right
    apply strContains_append_right
    apply strContains_append_right
    apply strContains_append_right
    rw [← String.append_assoc]
    apply strContains_append_left
    decide
  · unfold summaryText
    simp only [Bool.false_eq_true, if_false]
    simp only [String.append_assoc]
    apply strContains_append_right
    apply strContains_append_right
    apply strContains_append_right
    apply strContains_append_right
    apply strContains_append_right
    apply strContains_append_right
    apply strContains_append_right
    apply strContains_append_right
    apply strContains_append_right
    apply strContains_append_right
    apply strContains_append_right
    apply strContains_append_right
    apply strContains_append_right
    rw [← String.append_assoc]
    apply strContains_append_left
    decide
  · rw [weatherByCity_success city "metric" geoResp wxResp renderTime loc
      rest hgeo hres hwx]
    simp [hmet]
  · unfold forecastUrl
    simp only [String.append_assoc]
    apply strContains_append_right
    apply strContains_append_right
    apply strContains_append_right
    apply strContains_append_right
    apply strContains_append_right
    apply strContains_append_right
    apply strContains_append_right
    apply strContains_append_right
    rw [← String.append_assoc]
    apply strContains_append_left
    decide
  · unfold forecastUrl
    simp only [String.append_assoc]
    apply strContains_append_right
    apply strContains_append_right
    apply strContains_append_right
    apply strContains_append_right
    apply strContains_append_right
    apply strContains_append_right
    apply strContains_append_right
    apply strContains_append_right
    apply strContains_append_right
    apply strContains_append_right
    rw [← String.append_assoc]
    apply strContains_append_left
    decide
  · unfold summaryText
    simp only [if_true]
    simp only [String.append_assoc]
    apply strContains_append_right
    apply strContains_append_right
    apply strContains_append_right
    apply strContains_append_right
    apply strContains_append_right
    apply strContains_append_right
    apply strContains_append_right
    apply strContains_append_right
    apply strContains_append_right
    rw [← String.append_assoc]
    apply strContains_append_left
    decide
  · unfold summaryText
    simp only [if_true]
    simp only [String.append_assoc]
    apply strContains_append_right
    apply strContains_append_right
    apply strContains_append_right
    apply strContains_append_right
    apply strContains_append_right
    apply strContains_append_right
    apply strContains_append_right
    apply strContains_append_right
    apply strContains_append_right
    apply strContains_append_right
    apply strContains_append_right
    apply strContains_append_right
    apply strContains_append_right
    rw [← String.append_assoc]
    apply strContains_append_left
    decide

theorem units_selection_witness :
    strContains "temperature_unit=fahrenheit"
      (forecastUrl sampleLoc.latitude.render sampleLoc.longitude.render
        "fahrenheit" "mph") ∧
    strContains "°C" (summaryText sampleLoc true sampleWxResp.body id) := by
  have h := units_selection "Pune" sampleGeoResp sampleWxResp id sampleLoc []
    (by decide) (by decide) (by decide)
  exact ⟨h.2.2.1, h.2.2.2.2.2.2.2.2.2.1⟩

/-- C7: on a successful invocation the call never fails on a partially
populated current object — the result is a normal text plus resource-link
result; the current object is resolved from `wx.current`, else
`wx.current_weather`, else the empty object; the temperature is read from
`temperature_2m`, else `temperature`, the wind from `wind_speed_10m`, else
`windspeed`, and each of temperature, wind and precipitation renders as
"n/a" in the summary when absent. -/
theorem current_condition_fallbacks (city units : String)
    (geoResp : FetchResp GeoPayload) (wxResp : FetchResp WxPayload)
    (renderTime : String → String) (loc : Loc) (rest : List Loc)
    (hgeo : statusOk geoResp.status = true)
    (hres : geoResp.body.results = some (loc :: rest))
    (hwx : statusOk wxResp.status = true) :
    ((weatherByCity city units geoResp wxResp renderTime).2 =
      .ok [.text (summaryText loc (units != "imperial") wxResp.body
             renderTime),
           .resourceLink (forecastUrl loc.latitude.render
               loc.longitude.render
               (if units != "imperial" then "celsius" else "fahrenheit")
               (if units != "imperial" then "kmh" else "mph"))
             "Open-Meteo API call" "application/json" "Raw forecast JSON"]) ∧
    (∀ c, wxResp.body.current = some c →
      resolveCurrent wxResp.body = c) ∧
    (∀ c, wxResp.body.current = none → wxResp.body.current_weather = some c →
      resolveCurrent wxResp.body = c) ∧
    (wxResp.body.current = none → wxResp.body.current_weather = none →
      resolveCurrent wxResp.body = CurrentObj.empty) ∧
    ((resolveCurrent wxResp.body).temperature_2m = none →
      (resolveCurrent wxResp.body).temperature = none →
      strContains "Now: n/a°"
        (summaryText loc (units != "imperial") wxResp.body renderTime)) ∧
    (∀ v, (resolveCurrent wxResp.body).temperature_2m = some v →
      strContains ("Now: " ++ v.render ++ "°")
        (summaryText loc (units != "imperial") wxResp.body renderTime)) ∧
    (∀ v, (resolveCurrent wxResp.body).temperature_2m = none →
      (resolveCurrent wxResp.body).temperature = some v →
      strContains ("Now: " ++ v.render ++ "°")
        (summaryText loc (units != "imperial") wxResp.body renderTime)) ∧
    ((resolveCurrent wxResp.body).wind_speed_10m = none →
      (resolveCurrent wxResp.body).windspeed = none →
      strContains ", wind n/a "
        (summaryText loc (units != "imperial") wxResp.body renderTime)) ∧
    (∀ v, (resolveCurrent wxResp.body).wind_speed_10m = some v →
      strContains (", wind " ++ v.render ++ " ")
        (summaryText loc (units != "imperial") wxResp.body renderTime)) ∧
    (∀ v, (resolveCurrent wxResp.body).wind_speed_10m = none →
      (resolveCurrent wxResp.body).windspeed = some v →
      strContains (", wind " ++ v.render ++ " ")
        (summaryText loc (units != "imperial") wxResp.body renderTime)) ∧
    ((resolveCurrent wxResp.body).precipitation = none →
      strContains ", precip n/a\n"
        (summaryText loc (units != "imperial") wxResp.body renderTime)) := by
  refine ⟨?_, ?_, ?_, ?_, ?_, ?_, ?_, ?_, ?_, ?_, ?_⟩
  · rw [weatherByCity_success city units geoResp wxResp renderTime loc rest
      hgeo hres hwx]
  · intro c hc
    unfold resolveCurrent
    rw [hc]
  · intro c h1 h2
    unfold resolveCurrent
    rw [h1, h2]
  · intro h1 h2
    unfold resolveCurrent
    rw [h1, h2]
  · intro h1 h2
    simp only [summaryText, h1, h2, renderOr]
    simp only [String.append_assoc]
    apply strContains_append_right
    apply strContains_append_right
    apply strContains_append_right
    apply strContains_append_right
    apply strContains_append_right
    apply strContains_append_right
    apply strContains_append_right
    apply strContains_chunk3
    decide
  · intro v h1
    simp only [summaryText, h1, renderOr]
    simp only [String.append_assoc]
    apply strContains_append_right
    apply strContains_append_right
    apply strContains_append_right
    apply strContains_append_right
    apply strContains_append_right
    apply strContains_append_right
    apply strContains_append_right
    apply strContains_chunk3
    exact strContains_refl _
  · intro v h1 h2
    simp only [summaryText, h1, h2, renderOr]
    simp only [String.append_assoc]
    apply strContains_append_right
    apply strContains_append_right
    apply strContains_append_right
    apply strContains_append_right
    apply strContains_append_right
    apply strContains_append_right
    apply strContains_append_right
    apply strContains_chunk3
    exact strContains_refl _
  · intro h1 h2
    simp only [summaryText, h1, h2, renderOr]
    simp only [String.append_assoc]
    apply strContains_append_right
    apply strContains_append_right
    apply strContains_append_right
    apply strContains_append_right
    apply strContains_append_right
    apply strContains_append_right
    apply strContains_append_right
    apply strContains_append_right
    apply strContains_append_right
    apply strContains_append_right
    apply strContains_append_right
    apply strContains_chunk3
    decide
  · intro v h1
    simp only [summaryText, h1, renderOr]
    simp only [String.append_assoc]
    apply strContains_append_right
    apply strContains_append_right
    apply strContains_append_right
    apply strContains_append_right
    apply strContains_append_right
    apply strContains_append_right
    apply strContains_append_right
    apply strContains_append_right
    apply strContains_append_right
    apply strContains_append_right
    apply strContains_append_right
    apply strContains_chunk3
    exact strContains_refl _
  · intro v h1 h2
    simp only [summaryText, h1, h2, renderOr]
    simp only [String.append_assoc]
    apply strContains_append_right
    apply strContains_append_right
    apply strContains_append_right
    apply strContains_append_right
    apply strContains_append_right
    apply strContains_append_right
    apply strContains_append_right
    apply strContains_append_right
    apply strContains_append_right
    apply strContains_append_right
    apply strContains_append_right
    apply strContains_chunk3
    exact strContains_refl _
  · intro h1
    simp only [summaryText, h1, renderOr1]
    simp only [String.append_assoc]
    apply strContains_append_right
    apply strContains_append_right
    apply strContains_append_right
    apply strContains_append_right
    apply strContains_append_right
    apply strContains_append_right
    apply strContains_append_right
    apply strContains_append_right
    apply strContains_append_right
    apply strContains_append_right
    apply strContains_append_right
    apply strContains_append_right
    apply strContains_append_right
    apply strContains_append_right
    apply strContains_append_right
    apply strContains_chunk3
    decide

theorem current_condition_fallbacks_witness :
    strContains ", precip n/a\n"
      (summaryText sampleLoc ("metric" != "imperial") sampleWxResp.body
        id) := by
  have h := current_condition_fallbacks "Pune" "metric" sampleGeoResp
    sampleWxResp id sampleLoc [] (by decide) (by decide) (by decide)
  exact h.2.2.2.2.2.2.2.2.2.2 (by decide)

/-- The sliced hourly time list never exceeds 6 entries. -/
theorem hourlyTimes_length_le (wx : WxPayload) :
    (hourlyTimes wx).length ≤ 6 := by
  cases hw : wx.hourly with
  | none => simp [hourlyTimes, hw]
  | some h =>
      cases ht : h.time with
      | none => simp [hourlyTimes, hw, ht]
      | some ts =>
          simp only [hourlyTimes, hw, ht, List.length_take]
          omega

/-- Indexing a `take`-prefix agrees with indexing the original list. -/
theorem jsIndexStr_take (xs : List String) (i n : Nat) (h : i < n) :
    jsIndexStr (xs.take n) i = jsIndexStr xs i := by
  unfold jsIndexStr
  rw [List.get?_take h]

/-- C8: on a successful invocation the summary has at most 6 hourly lines;
the i-th line is built, in order, from the i-th entry of the hourly time
series (together with the i-th sliced temperature and precipitation
values); and when the hourly time array is empty the call still returns the
normal result whose text contains the current-conditions line and whose
hourly section is empty (the text ends at the "Next 6 hours" heading). -/
theorem hourly_lines_bounded (city units : String)
    (geoResp : FetchResp GeoPayload) (wxResp : FetchResp WxPayload)
    (renderTime : String → String) (loc : Loc) (rest : List Loc)
    (hgeo : statusOk geoResp.status = true)
    (hres : geoResp.body.results = some (loc :: rest))
    (hwx : statusOk wxResp.status = true) :
    ((hourlyLineList renderTime wxResp.body).length ≤ 6) ∧
    (∀ h ts, wxResp.body.hourly = some h → h.time = some ts →
      ∀ i, i < (hourlyLineList renderTime wxResp.body).length →
      (hourlyLineList renderTime wxResp.body).get? i =
        some ("\n  " ++ renderTime (jsIndexStr ts i) ++ ": " ++
          jsIndexRender (hourlyTemps wxResp.body) i ++ "°, " ++
          jsIndexRender (hourlyPops wxResp.body) i ++ "%")) ∧
    (∀ h, wxResp.body.hourly = some h → h.time = some [] →
      hourlyLineList renderTime wxResp.body = [] ∧
      (weatherByCity city units geoResp wxResp renderTime).2 =
        .ok [.text (summaryText loc (units != "imperial") wxResp.body
               renderTime),
             .resourceLink (forecastUrl loc.latitude.render
                 loc.longitude.render
                 (if units != "imperial" then "celsius" else "fahrenheit")
                 (if units != "imperial" then "kmh" else "mph"))
               "Open-Meteo API call" "application/json"
               "Raw forecast JSON"] ∧
      strContains ("Now: " ++
          renderOr (resolveCurrent wxResp.body).temperature_2m
            (resolveCurrent wxResp.body).temperature ++ "°")
        (summaryText loc (units != "imperial") wxResp.body renderTime) ∧
      (∃ pre, summaryText loc (units != "imperial") wxResp.body renderTime =
        pre ++ "Next 6 hours (temp, pop%):")) := by
  have hlen : (hourlyLineList renderTime wxResp.body).length =
      (hourlyTimes wxResp.body).length := by
    simp [hourlyLineList]
  refine ⟨?_, ?_, ?_⟩
  · rw [hlen]
    exact hourlyTimes_length_le wxResp.body
  · intro h ts hh hts i hi
    have ht : hourlyTimes wxResp.body = ts.take 6 := by
      simp [hourlyTimes, hh, hts]
    have hi' : i < (hourlyTimes wxResp.body).length := hlen ▸ hi
    have h6 : i < 6 := by
      have h1 := hi'
      rw [ht, List.length_take] at h1
      omega
    have hg : (hourlyLineList renderTime wxResp.body).get? i =
        some (hourlyLine renderTime (hourlyTimes wxResp.body)
          (hourlyTemps wxResp.body) (hourlyPops wxResp.body) i) := by
      unfold hourlyLineList
      rw [List.get?_map, List.get?_range hi']
      rfl
    rw [hg]
    unfold hourlyLine
    rw [ht, jsIndexStr_take ts i 6 h6]
  · intro h hh hts
    have hempty : hourlyTimes wxResp.body = [] := by
      simp [hourlyTimes, hh, hts]
    have hnil : hourlyLineList renderTime wxResp.body = [] := by
      simp [hourlyLineList, hempty]
    refine ⟨hnil, ?_, ?_, ?_⟩
    · rw [weatherByCity_success city units geoResp wxResp renderTime loc
        rest hgeo hres hwx]
    · simp only [summaryText]
      simp only [String.append_assoc]
      apply strContains_append_right
      apply strContains_append_right
      apply strContains_append_right
      apply strContains_append_right
      apply strContains_append_right
      apply strContains_append_right
      apply strContains_append_right
      apply strContains_chunk3
      exact strContains_refl _
    · simp only [summaryText, hnil]
      rw [show String.join [] = "" from rfl, String.append_empty]
      exact ⟨_, rfl⟩

theorem hourly_lines_bounded_witness :
    (hourlyLineList id emptyHourlyWxResp.body = []) ∧
    (∃ pre, summaryText sampleLoc ("metric" != "imperial")
        emptyHourlyWxResp.body id =
      pre ++ "Next 6 hours (temp, pop%):") := by
  have h := hourly_lines_bounded "Pune" "metric" sampleGeoResp
    emptyHourlyWxResp id sampleLoc [] (by decide) (by decide) (by decide)
  have h3 := h.2.2 ⟨some [], some [], some []⟩ (by decide) (by decide)
  exact ⟨h3.1, h3.2.2.2⟩

/-- C10: on a successful invocation the number of hourly lines equals
min(6, length of the hourly time array) — it is determined by the time
array alone — and when the sliced temperature (resp. precipitation
probability) values run out before the time entries, the affected line
renders the literal text "undefined" in that slot instead of "n/a". -/
theorem hourly_lines_follow_time_array (city units : String)
    (geoResp : FetchResp GeoPayload) (wxResp : FetchResp WxPayload)
    (renderTime : String → String) (loc : Loc) (rest : List Loc)
    (h : HourlyObj) (ts : List String)
    (hgeo : statusOk geoResp.status = true)
    (hres : geoResp.body.results = some (loc :: rest))
    (hwx : statusOk wxResp.status = true)
    (hh : wxResp.body.hourly = some h) (hts : h.time = some ts) :
    ((weatherByCity city units geoResp wxResp renderTime).2 =
      .ok [.text (summaryText loc (units != "imperial") wxResp.body
             renderTime),
           .resourceLink (forecastUrl loc.latitude.render
               loc.longitude.render
               (if units != "imperial" then "celsius" else "fahrenheit")
               (if units != "imperial" then "kmh" else "mph"))
             "Open-Meteo API call" "application/json" "Raw forecast JSON"]) ∧
    ((hourlyLineList renderTime wxResp.body).length = min 6 ts.length) ∧
    (∀ i, i < min 6 ts.length →
      (hourlyTemps wxResp.body).get? i = none →
      (hourlyLineList renderTime wxResp.body).get? i =
        some ("\n  " ++ renderTime (jsIndexStr ts i) ++ ": " ++
          "undefined" ++ "°, " ++
          jsIndexRender (hourlyPops wxResp.body) i ++ "%")) ∧
    (∀ i, i < min 6 ts.length →
      (hourlyPops wxResp.body).get? i = none →
      (hourlyLineList renderTime wxResp.body).get? i =
        some ("\n  " ++ renderTime (jsIndexStr ts i) ++ ": " ++
          jsIndexRender (hourlyTemps wxResp.body) i ++ "°, " ++
          "undefined" ++ "%")) := by
  have ht : hourlyTimes wxResp.body = ts.take 6 := by
    simp [hourlyTimes, hh, hts]
  have hlen : (hourlyLineList renderTime wxResp.body).length =
      min 6 ts.length := by
    simp [hourlyLineList, ht, List.length_take]
  refine ⟨?_, hlen, ?_, ?_⟩
  · rw [weatherByCity_success city units geoResp wxResp renderTime loc rest
      hgeo hres hwx]
  · intro i hi htemp
    have hi' : i < (hourlyTimes wxResp.body).length := by
      rw [ht, List.length_take]
      omega
    have h6 : i < 6 := by omega
    have hg : (hourlyLineList renderTime wxResp.body).get? i =
        some (hourlyLine renderTime (hourlyTimes wxResp.body)
          (hourlyTemps wxResp.body) (hourlyPops wxResp.body) i) := by
      unfold hourlyLineList
      rw [List.get?_map, List.get?_range hi']
      rfl
    rw [hg]
    unfold hourlyLine
    rw [ht, jsIndexStr_take ts i 6 h6]
    unfold jsIndexRender
    rw [htemp]
  · intro i hi hpop
    have hi' : i < (hourlyTimes wxResp.body).length := by
      rw [ht, List.length_take]
      omega
    have h6 : i < 6 := by omega
    have hg : (hourlyLineList renderTime wxResp.body).get? i =
        some (hourlyLine renderTime (hourlyTimes wxResp.body)
          (hourlyTemps wxResp.body) (hourlyPops wxResp.body) i) := by
      unfold hourlyLineList
      rw [List.get?_map, List.get?_range hi']
      rfl
    rw [hg]
    unfold hourlyLine
    rw [ht, jsIndexStr_take ts i 6 h6]
    unfold jsIndexRender
    rw [hpop]

theorem hourly_lines_follow_time_array_witness :
    ((hourlyLineList id sampleWxResp.body).length = min 6 3) ∧
    ((hourlyLineList id sampleWxResp.body).get? 1 =
      some ("\n  " ++ id (jsIndexStr ["00:00", "01:00", "02:00"] 1) ++ ": " ++
        "undefined" ++ "°, " ++
        jsIndexRender (hourlyPops sampleWxResp.body) 1 ++ "%")) := by
  have h := hourly_lines_follow_time_array "Pune" "metric" sampleGeoResp
    sampleWxResp id sampleLoc []
    { time := some ["00:00", "01:00", "02:00"],
      temperature_2m := some [{ render := "20", toFixed2 := "20.00" }],
      precipitation_probability := none }
    ["00:00", "01:00", "02:00"]
    (by decide) (by decide) (by decide) (by decide) (by decide)
  exact ⟨h.2.1, h.2.2.1 1 (by decide) (by decide)⟩

end McpWeather
